import Mathlib

/-!
Verification of the C-AdvDGM repository.

This file embeds the parts of the repository that the claims are about:

* `src/cdgm/data_processors/ctgan/transformers/base.py`
  - the `set_random_states` context manager and the `random_state` decorator
    that wrap each lifecycle phase (`fit`, `transform`, `reverse_transform`),
  - `BaseTransformer.__init__`, `set_random_state`, `reset_randomization`,
  - `BaseTransformer.fit` with `_store_columns`, `_get_columns_data` and
    `_build_output_columns` (the output-column collision-avoidance loop),
  - `BaseTransformer.get_subclasses`.
* `src/mlc/models/samples/__init__.py`: `load_model` / `load_models` and the
  `models` registry from `src/mlc/models/tabsurvey/mlp_rln.py`.
* `src/mlc/models/tabsurvey/mlp_rln.py`: `RLNCallback.__init__`,
  `RLNCallback.on_train_begin` and `RLNCallback.on_batch_end`.

Modelling conventions.  The numpy and torch pseudo-random generator states
are external library state; they are modelled as opaque `Nat` tokens.
Seeding is modelled by the injections `npSeedState` / `torchSeedState`
(a state token per seed).  `torch.manual_seed` returns the process-global
default generator itself, so torch generator objects are modelled by
`TorchGenRef`: either the (aliased) default generator, whose observable
state is the current global torch state, or an independent `owned` state.
Python exceptions are modelled with `Except` / `Option PyErr`; an operation
that both mutates state and may raise returns a pair of the new state and
an optional error, matching the order of effects in the source.
Real-valued numpy/pandas arithmetic in `RLNCallback` is modelled over `ℝ`,
with matrices as functions `Fin n → Fin m → ℝ`.
-/

namespace CAdvDGM

/-- Python exception kinds raised by the embedded code paths. -/
inductive PyErr where
  | typeError
  | attributeError
  | valueError
  | keyError
  | notImplementedError
  | indexError
  | assertionError
deriving DecidableEq

/-- The three lifecycle phases wrapped by the `random_state` decorator. -/
inductive Phase where
  | fit
  | transform
  | reverseTransform
deriving DecidableEq

/-- The process-global pseudo-random state: the global numpy MT state,
the state of torch's default generator, and the seed that torch's default
generator was last seeded with (what `torch.initial_seed()` returns). -/
structure GlobalRNG where
  np : Nat
  torch : Nat
  initialSeed : Nat
deriving DecidableEq

/-- State of a fresh `numpy.random.RandomState(seed=s)` (opaque token). -/
def npSeedState (s : Nat) : Nat := s

/-- State of torch's default generator right after `torch.manual_seed(s)`
(opaque token). -/
def torchSeedState (s : Nat) : Nat := s

/-- A torch generator object.  `torch.manual_seed` returns the process
default generator, so objects obtained from it alias the global generator;
`owned` models an independent generator with its own state. -/
inductive TorchGenRef where
  | default
  | owned (state : Nat)
deriving DecidableEq

/-- `generator.get_state()`: the default generator reads the current global
torch state, an owned generator reads its own state. -/
def TorchGenRef.getState : TorchGenRef → GlobalRNG → Nat
  | .default, g => g.torch
  | .owned s, _ => s

/-- The random-state attributes of a `BaseTransformer` instance:
`self.random_states` (numpy, per phase) and `self.random_states_torch`
(torch, per phase).  `none` models the attribute being `None`
(respectively never assigned, for `random_states_torch`). -/
structure TransformerRNG where
  randomStates : Option (Phase → Nat)
  randomStatesTorch : Option (Phase → TorchGenRef)

/-- `BaseTransformer.__init__`: the seeded dictionaries are commented out in
the source and `self.random_states = None` is assigned instead;
`self.random_states_torch` is never assigned. -/
def BaseTransformer.init : TransformerRNG :=
  { randomStates := none, randomStatesTorch := none }

/-- Class attribute `INITIAL_FIT_STATE = np.random.RandomState(seed=21)`. -/
def INITIAL_FIT_STATE : Nat := npSeedState 21

/-- Class attribute `INITIAL_TRANSFORM_STATE = np.random.RandomState(seed=80)`. -/
def INITIAL_TRANSFORM_STATE : Nat := npSeedState 80

/-- Class attribute `INITIAL_REVERSE_TRANSFORM_STATE = np.random.RandomState(seed=130)`. -/
def INITIAL_REVERSE_TRANSFORM_STATE : Nat := npSeedState 130

/-- Class attribute `INITIAL_FIT_STATE_TORCH = torch.manual_seed(21)`:
`torch.manual_seed` returns the process default generator, so the attribute
holds the aliased default generator, not an independent seeded state. -/
def INITIAL_FIT_STATE_TORCH : TorchGenRef := TorchGenRef.default

/-- Class attribute `INITIAL_TRANSFORM_STATE_TORCH = torch.manual_seed(80)`:
again the aliased default generator. -/
def INITIAL_TRANSFORM_STATE_TORCH : TorchGenRef := TorchGenRef.default

/-- Class attribute `INITIAL_REVERSE_TRANSFORM_STATE_TORCH = torch.manual_seed(131)`:
again the aliased default generator. -/
def INITIAL_REVERSE_TRANSFORM_STATE_TORCH : TorchGenRef := TorchGenRef.default

/-- Pointwise update of a per-phase dictionary entry. -/
def updatePhase {β : Type} (f : Phase → β) (p : Phase) (v : β) : Phase → β :=
  fun q => if q = p then v else f q

/-- `BaseTransformer.set_random_state(state, state_torch, method_name)`.
When `self.random_states` is `None`, the membership test
`method_name not in self.random_states` raises `TypeError`.  When it is a
dictionary it always contains all three phase keys (every code path that
builds it installs all three), so the `ValueError` branch is unreachable
and the per-phase maps are total.  `self.random_states[method_name]` is
assigned before `self.random_states_torch[method_name]`; if the torch
dictionary attribute is missing, the numpy update has already happened when
the `AttributeError` is raised, hence the state/error pair. -/
def setRandomState (t : TransformerRNG) (state : Nat) (stateTorch : TorchGenRef)
    (p : Phase) : TransformerRNG × Option PyErr :=
  match t.randomStates with
  | none => (t, some PyErr.typeError)
  | some rs =>
    let t1 : TransformerRNG := { t with randomStates := some (updatePhase rs p state) }
    match t.randomStatesTorch with
    | none => (t1, some PyErr.attributeError)
    | some rst =>
      ({ t1 with randomStatesTorch := some (updatePhase rst p stateTorch) }, none)

/-- `BaseTransformer.reset_randomization()`: three sequential
`set_random_state` calls, stopping at the first raised exception. -/
def resetRandomization (t : TransformerRNG) : TransformerRNG × Option PyErr :=
  let r1 := setRandomState t INITIAL_FIT_STATE INITIAL_FIT_STATE_TORCH Phase.fit
  match r1.2 with
  | some e => (r1.1, some e)
  | none =>
    let r2 := setRandomState r1.1 INITIAL_TRANSFORM_STATE INITIAL_TRANSFORM_STATE_TORCH Phase.transform
    match r2.2 with
    | some e => (r2.1, some e)
    | none =>
      let r3 := setRandomState r2.1 INITIAL_REVERSE_TRANSFORM_STATE
        INITIAL_REVERSE_TRANSFORM_STATE_TORCH Phase.reverseTransform
      (r3.1, r3.2)

/-- Outcome of a wrapped phase call: the returned value or raised exception,
the final process-global generator state and the final transformer state. -/
structure PhaseOutcome (α : Type) where
  result : Except PyErr α
  global : GlobalRNG
  transformer : TransformerRNG

/-- The body of the `set_random_states` context manager (lines 23-42 of
`base.py`) around a phase body.  The body is an arbitrary state transformer
since `_fit` / `_transform` / `_reverse_transform` are subclass hooks: it
reads and writes the process-global generator state and returns a value or
raises.  Step by step, following the source:
entry saves the global numpy state and installs the stored per-phase numpy
state, then saves the global torch state and installs the state read from
the stored per-phase torch generator; in the `finally` block a fresh
`RandomState` captures the post-body numpy state,
`torch.manual_seed(torch.initial_seed())` re-seeds the default generator
(discarding the post-body torch state) and returns the default generator,
`torch.random.set_rng_state` of that generator's state is a no-op,
`set_model_random_state` stores the captured numpy state and the aliased
default generator, and finally both saved global states are restored. -/
def setRandomStatesRun {α : Type} (rs : Phase → Nat) (rst : Phase → TorchGenRef)
    (p : Phase) (t : TransformerRNG)
    (body : GlobalRNG → Except PyErr α × GlobalRNG) (g : GlobalRNG) : PhaseOutcome α :=
  let originalNp := g.np
  let g1 : GlobalRNG := { g with np := rs p }
  let originalTorch := g1.torch
  let g2 : GlobalRNG := { g1 with torch := TorchGenRef.getState (rst p) g1 }
  let br := body g2
  let res := br.1
  let g3 := br.2
  let currentNp := g3.np
  let g4 : GlobalRNG := { g3 with torch := torchSeedState g3.initialSeed }
  let g5 : GlobalRNG := { g4 with torch := TorchGenRef.getState TorchGenRef.default g4 }
  let sr := setRandomState t currentNp TorchGenRef.default p
  match sr.2 with
  | some e => { result := Except.error e, global := g5, transformer := sr.1 }
  | none =>
    { result := res
      global := { g5 with np := originalNp, torch := originalTorch }
      transformer := sr.1 }

/-- A phase call through the `random_state` decorator: when
`self.random_states` is `None` the body runs directly against the ambient
global state; otherwise evaluating `self.random_states_torch` as an
argument raises `AttributeError` if the attribute is missing, and else the
call runs inside the `set_random_states` context manager. -/
def callPhase {α : Type} (t : TransformerRNG) (p : Phase)
    (body : GlobalRNG → Except PyErr α × GlobalRNG) (g : GlobalRNG) : PhaseOutcome α :=
  match t.randomStates with
  | none =>
    let br := body g
    { result := br.1, global := br.2, transformer := t }
  | some rs =>
    match t.randomStatesTorch with
    | none => { result := Except.error PyErr.attributeError, global := g, transformer := t }
    | some rst => setRandomStatesRun rs rst p t body g

/-- The stored per-phase numpy state after a phase call. -/
def storedNp {α : Type} (o : PhaseOutcome α) (p : Phase) : Option Nat :=
  o.transformer.randomStates.map (fun rs => rs p)

/-- The state a reader (for example pickling) observes on the stored
per-phase torch generator after a phase call: the generator reference
resolved against the final global torch state. -/
def observedStoredTorch {α : Type} (o : PhaseOutcome α) (p : Phase) : Option Nat :=
  o.transformer.randomStatesTorch.map (fun rst => TorchGenRef.getState (rst p) o.global)

/-- A phase body (as a concrete `_fit` hook could) that reports the numpy
generator state it sees, without modifying any state. -/
def npProbe : GlobalRNG → Except PyErr Nat × GlobalRNG :=
  fun g => (Except.ok g.np, g)

/-- A phase body that draws nothing and returns 0. -/
def noopBody : GlobalRNG → Except PyErr Nat × GlobalRNG :=
  fun g => (Except.ok 0, g)

/-- A phase body that mutates both global generator states and then
raises, as a failing `_transform` hook could. -/
def failBody : GlobalRNG → Except PyErr Nat × GlobalRNG :=
  fun g => (Except.error PyErr.valueError, { g with np := 999, torch := 888 })

/-- A transformer whose random states have been installed externally (the
only way they become non-`None`, since `__init__` leaves them `None`):
every phase maps to numpy state 3 and an owned torch generator in state 5. -/
def tOwned : TransformerRNG :=
  { randomStates := some (fun _ => 3)
    randomStatesTorch := some (fun _ => TorchGenRef.owned 5) }

/-! Column machinery of `BaseTransformer` (`fit`, `_store_columns`,
`_get_columns_data`, `_build_output_columns`, `get_output_columns`). -/

/-- A `pandas.DataFrame` over value type `α`: an ordered list of named
columns. -/
structure Frame (α : Type) where
  cols : List (String × List α)

/-- `data.columns`. -/
def Frame.names {α : Type} (d : Frame α) : List String := d.cols.map Prod.fst

/-- `data[name]`: the values of the named column (empty if absent; the
embedded code only reads columns it has checked for). -/
def Frame.col {α : Type} (d : Frame α) (name : String) : List α :=
  ((d.cols.find? (fun e => e.1 == name)).map Prod.snd).getD []

/-- The column-related attributes of a `BaseTransformer` instance.
`outputProperties` models `self.output_properties`: one entry per output
key (`None` or a string suffix) with the list of property names its value
dictionary contains.  The class attributes `columns`, `column_prefix` and
`output_columns` start out `None`; they are modelled with empty defaults
because the embedded code paths assign them before reading them. -/
structure TransformerCols where
  outputProperties : List (Option String × List String)
  columns : List String
  columnPfx : String
  outputColumns : List String

/-- `self.output_properties` as assigned by `BaseTransformer.__init__`:
`{None: {'sdtype': 'float', 'next_transformer': None}}`. -/
def defaultOutputProperties : List (Option String × List String) :=
  [(none, ["sdtype", "next_transformer"])]

/-- `'#'.join(columns)`. -/
def joinHash (cols : List String) : String := String.intercalate "#" cols

/-- `get_output_columns()` = `list(self._get_output_to_property('sdtype'))`
computed from a given column prefix: for each output key whose properties
contain `'sdtype'`, the name `f'{column_prefix}'` (key `None`) or
`f'{column_prefix}.{output_column}'`. -/
def getOutputColumnsFrom (pfx : String) (props : List (Option String × List String)) :
    List String :=
  (props.filter (fun e => e.2.contains "sdtype")).map
    (fun e => match e.1 with
      | none => pfx
      | some oc => pfx ++ "." ++ oc)

/-- `repeated_columns = (set(output_columns) - set(self.columns)) & set(data.columns)`
as the filtered list of offending output names. -/
def repeatedColumns (out cols dataNames : List String) : List String :=
  out.filter (fun c => decide (c ∉ cols) && decide (c ∈ dataNames))

/-- The `while repeated_columns:` loop of `_build_output_columns`: as long
as some generated output name (other than an input column) already exists
in the data, append `'#'` to the column prefix and regenerate.  The source
loop terminates because the prefix grows at each turn while the data's
column names are fixed; the fuel argument is set by the caller to
`maxNameLen data.columns + 1`, which `buildLoop_disjoint` proves
sufficient, so the fuel-exhausted branch is never reached. -/
def buildLoop : Nat → String → List (Option String × List String) → List String →
    List String → String × List String
  | 0, pfx, props, _, _ => (pfx, getOutputColumnsFrom pfx props)
  | fuel + 1, pfx, props, cols, dataNames =>
    let out := getOutputColumnsFrom pfx props
    if repeatedColumns out cols dataNames = [] then (pfx, out)
    else buildLoop fuel (pfx ++ "#") props cols dataNames

/-- The longest name in a list of column names. -/
def maxNameLen (names : List String) : Nat :=
  names.foldr (fun s acc => max s.length acc) 0

/-- `BaseTransformer._build_output_columns(data)`: set
`self.column_prefix = '#'.join(self.columns)`, compute
`self.output_columns = self.get_output_columns()` and run the
collision-avoidance loop against `data.columns`. -/
def buildOutputColumns (t : TransformerCols) (dataNames : List String) : TransformerCols :=
  let pfx0 := joinHash t.columns
  let r := buildLoop (maxNameLen dataNames + 1) pfx0 t.outputProperties t.columns dataNames
  { t with columnPfx := r.1, outputColumns := r.2 }

/-- `BaseTransformer.fit(data, column)` with a `str` column name:
`_store_columns` wraps the name in a list and raises `KeyError` when it is
missing from the data; `_get_columns_data` returns `data[column].copy()`,
an independent copy; the `_fit` subclass hook (an arbitrary function
`fitHook`, modelling in-place mutation of its argument) receives that copy;
`_build_output_columns(data)` only reads `data.columns`.  The returned
triple is the transformer's new attributes, the caller's frame (which no
step writes to) and the final contents of the copied column object. -/
def fitCols {α : Type} (t : TransformerCols) (data : Frame α) (column : String)
    (fitHook : List α → List α) : Except PyErr (TransformerCols × Frame α × List α) :=
  if column ∈ Frame.names data then
    let t1 : TransformerCols := { t with columns := [column] }
    let colsData := Frame.col data column
    let afterFit := fitHook colsData
    let t2 := buildOutputColumns t1 (Frame.names data)
    Except.ok (t2, data, afterFit)
  else Except.error PyErr.keyError

/-! `BaseTransformer.get_subclasses`.  The Python class hierarchy under a
class is modelled as a rose tree: each class has an identifier, the flag
`abc.ABC in cls.__bases__`, and its list of direct subclasses
(`cls.__subclasses__()`). -/

/-- A Python class with its direct-subclass tree. -/
inductive PyClass where
  | node (id : Nat) (abcInBases : Bool) (subs : List PyClass)

/-- `abc.ABC in cls.__bases__`. -/
def PyClass.abcBase : PyClass → Bool
  | .node _ b _ => b

/-- `cls.__subclasses__()`. -/
def PyClass.directSubs : PyClass → List PyClass
  | .node _ _ subs => subs

mutual

/-- `BaseTransformer.get_subclasses()`: iterate over the direct subclasses;
append a subclass unless `abc.ABC` is among its direct bases, then append
its own recursive `get_subclasses()`. -/
def getSubclasses : PyClass → List PyClass
  | .node _ _ subs => getSubclassesList subs

/-- The `for subclass in cls.__subclasses__():` loop of `get_subclasses`. -/
def getSubclassesList : List PyClass → List PyClass
  | [] => []
  | c :: rest =>
    (if c.abcBase then [] else [c]) ++ getSubclasses c ++ getSubclassesList rest

end

/-- The strict-descendant relation of the modelled class hierarchy: `d` is
a direct subclass of `c`, or a strict descendant of a direct subclass. -/
inductive StrictDescendant : PyClass → PyClass → Prop where
  | direct {c d : PyClass} : d ∈ c.directSubs → StrictDescendant c d
  | step {c s d : PyClass} : s ∈ c.directSubs → StrictDescendant s d → StrictDescendant c d

/-! The model registry (`src/mlc/models/samples/__init__.py` and the
`models` list of `src/mlc/models/tabsurvey/mlp_rln.py`). -/

/-- The model classes appearing in the registry. -/
inductive ModelClass where
  | TORCHRLN
deriving DecidableEq

/-- `models: List[Tuple[str, Type[Model]]] = [("torchrln", TORCHRLN)]`. -/
def models : List (String × ModelClass) := [("torchrln", ModelClass.TORCHRLN)]

/-- `load_models` on a list argument: keep the registry entries whose name
is among the requested names, project the classes, and raise
`NotImplementedError` when the number kept differs from the number of
requested names. -/
def load_models (modelNames : List String) : Except PyErr (List ModelClass) :=
  let modelsOut := (models.filter (fun e => decide (e.1 ∈ modelNames))).map Prod.snd
  if modelsOut.length ≠ modelNames.length then Except.error PyErr.notImplementedError
  else Except.ok modelsOut

/-- `load_models` on a single string wraps it in a one-element list. -/
def load_models_str (name : String) : Except PyErr (List ModelClass) :=
  load_models [name]

/-- `load_model(model_name) = load_models(model_name)[0]`; indexing an
empty result would raise `IndexError`. -/
def load_model (name : String) : Except PyErr ModelClass :=
  match load_models_str name with
  | Except.error e => Except.error e
  | Except.ok [] => Except.error PyErr.indexError
  | Except.ok (c :: _) => Except.ok c

/-- Whether an `Except` value is a raised exception. -/
def isErr {ε α : Type} : Except ε α → Bool
  | Except.error _ => true
  | Except.ok _ => false

/-! `RLNCallback` from `src/mlc/models/tabsurvey/mlp_rln.py`.  The callback
works on `torch.t(self._layer.weight)`, a matrix of shape `(n, m)`;
matrices are modelled as real-valued functions on `Fin n × Fin m` and the
state consistently stores the transposed weight, so the final
`self._layer.weight = nn.Parameter(torch.t(...))` assignment round-trips. -/

/-- An `(n, m)` real matrix (a pandas `DataFrame` of that shape). -/
def Mat (n m : Nat) : Type := Fin n → Fin m → ℝ

/-- `np.sign`. -/
noncomputable def npSign (x : ℝ) : ℝ := if x < 0 then -1 else if 0 < x then 1 else 0

/-- `DataFrame.mean()` of a single column of length `k`. -/
noncomputable def dfMean {k : Nat} (v : Fin k → ℝ) : ℝ := (∑ i, v i) / k

/-- `DataFrame.mean().mean()`: the mean of the per-column means. -/
noncomputable def dfMean2 {n m : Nat} (A : Mat n m) : ℝ :=
  dfMean (fun j => dfMean (fun i => A i j))

/-- The per-weight state of an `RLNCallback` together with the wrapped
layer's (transposed) weight matrix, which the surrounding training loop
mutates between calls. -/
structure RLNState (n m : Nat) where
  layerWeight : Mat n m
  prevWeights : Option (Mat n m)
  weights : Option (Mat n m)
  prevRegularization : Option (Mat n m)
  avgReg : ℝ
  lambdas : Mat n m
  lr : ℝ
  norm : Nat

/-- `RLNCallback.__init__(layer, norm, avg_reg, learning_rate)`: the
prev/current weight and regularization slots start as `None`, `_lambdas`
is `np.ones(shape) * avg_reg`, and `assert norm in [1, 2]` runs after the
other fields are assigned and before `self.norm = norm`; on failure the
construction raises `AssertionError`. -/
noncomputable def RLNCallback.init (n m : Nat) (layerWeight : Mat n m) (norm : Nat)
    (avgReg lr : ℝ) : Except PyErr (RLNState n m) :=
  if norm = 1 ∨ norm = 2 then
    Except.ok
      { layerWeight := layerWeight
        prevWeights := none
        weights := none
        prevRegularization := none
        avgReg := avgReg
        lambdas := fun _ _ => avgReg
        lr := lr
        norm := norm }
  else Except.error PyErr.assertionError

/-- `RLNCallback.on_train_begin`: `_update_values` captures the layer's
current (transposed) weight into `self._weights`. -/
noncomputable def onTrainBegin {n m : Nat} (s : RLNState n m) : RLNState n m :=
  { s with weights := some s.layerWeight }

/-- The derivative of the weight norm: `np.sign(w)` for the l1 norm, `w * 2`
in the `else` branch (the l2 norm, the only other constructible value). -/
noncomputable def normsDerivative (norm : Nat) (w : ℝ) : ℝ :=
  if norm = 1 then npSign w else w * 2

/-- `np.log(np.abs(w / d)).fillna(np.inf)` for one entry: `none` models
`+inf` (no clipping).  With `d` the norm derivative of `w`, `w = 0` forces
`d = 0`, so `0 / 0 = NaN` becomes `+inf` via `fillna`; when both are
nonzero the bound is `log |w / d|`. -/
noncomputable def maxLambdaVal (w d : ℝ) : Option ℝ :=
  if d = 0 ∨ w = 0 then none else some (Real.log |w / d|)

/-- `DataFrame.clip(upper=u)` for one entry. -/
noncomputable def clipUpper (x : ℝ) : Option ℝ → ℝ
  | none => x
  | some b => min x b

/-- The simplex-projection step of `on_batch_end`:
`translation = avg_reg - lambdas.mean().mean(); lambdas += translation`. -/
noncomputable def projectLambdas {n m : Nat} (avgReg : ℝ) (l : Mat n m) : Mat n m :=
  fun i j => l i j + (avgReg - dfMean2 l)

/-- The `_lambdas` table right before the clipping step of `on_batch_end`:
on a non-first batch (`_prev_regularization` set), the gradient update
`lambdas -= lr * (gradients * prev_regularization)` followed by the simplex
projection; on the first batch, unchanged.  `pw` is the previous weights
captured at the top of the method, the layer weight is the current one. -/
noncomputable def preClipLambdas {n m : Nat} (s : RLNState n m) (pw : Mat n m) : Mat n m :=
  match s.prevRegularization with
  | none => s.lambdas
  | some pr =>
    projectLambdas s.avgReg
      (fun i j => s.lambdas i j - s.lr * ((s.layerWeight i j - pw i j) * pr i j))

/-- `RLNCallback.on_batch_end`: shift `_weights` to `_prev_weights` and
refresh `_weights` from the layer (`_update_values`); on a `None`
`_prev_weights` the subtraction `self._weights - self._prev_weights` would
raise `TypeError`.  Then: gradient/projection update of the lambdas (only
when `_prev_regularization` is set), clipping against
`np.log(np.abs(weights / norms_derivative)).fillna(np.inf)`, the weight
update `weights -= norms_derivative * np.exp(lambdas)`, write-back of the
weights into the layer, and `_prev_regularization = regularization`. -/
noncomputable def onBatchEnd {n m : Nat} (s : RLNState n m) : Except PyErr (RLNState n m) :=
  match s.weights with
  | none => Except.error PyErr.typeError
  | some pw =>
    let w : Mat n m := s.layerWeight
    let nd : Mat n m := fun i j => normsDerivative s.norm (w i j)
    let lambdas2 : Mat n m :=
      fun i j => clipUpper (preClipLambdas s pw i j) (maxLambdaVal (w i j) (nd i j))
    let reg : Mat n m := fun i j => nd i j * Real.exp (lambdas2 i j)
    let w2 : Mat n m := fun i j => w i j - reg i j
    Except.ok
      { s with
        prevWeights := some pw
        weights := some w2
        lambdas := lambdas2
        layerWeight := w2
        prevRegularization := some reg }

/-- The constant-one 1x1 matrix. -/
noncomputable def matOne : Mat 1 1 := fun _ _ => 1

/-- A freshly constructed callback on a 1x1 layer with weight 1, l1 norm,
`avg_reg = 1` and `learning_rate = 1` (the value `RLNCallback.init`
returns for these arguments). -/
noncomputable def rlnS0 : RLNState 1 1 :=
  { layerWeight := matOne
    prevWeights := none
    weights := none
    prevRegularization := none
    avgReg := 1
    lambdas := fun _ _ => 1
    lr := 1
    norm := 1 }

/-- The constant-zero 1x1 matrix. -/
noncomputable def rlnW0 : Mat 1 1 := fun _ _ => 0

/-- The state reached after `on_train_begin` and a first `on_batch_end`
from `rlnS0`, with the layer weight then set back to 1 by the training
loop: the input of a second (non-first) `on_batch_end`. -/
noncomputable def rlnSb : RLNState 1 1 :=
  { layerWeight := matOne
    prevWeights := some matOne
    weights := some rlnW0
    prevRegularization := some matOne
    avgReg := 1
    lambdas := rlnW0
    lr := 1
    norm := 1 }

/-! Theorems. -/

/-- C1 counterexample.  The claim states that every phase call on every
`BaseTransformer` instance draws from a per-instance, per-phase stream, so
that its result is independent of the ambient global generator state.  On a
default-constructed transformer `__init__` leaves `random_states = None`,
so the decorator runs the body directly against the ambient global stream:
the same phase on equally-constructed transformers with equal inputs
returns different results for two different ambient numpy states. -/
theorem C1_counterexample :
    (callPhase BaseTransformer.init Phase.fit npProbe
        { np := 0, torch := 0, initialSeed := 0 }).result = Except.ok 0 ∧
    (callPhase BaseTransformer.init Phase.fit npProbe
        { np := 1, torch := 0, initialSeed := 0 }).result = Except.ok 1 ∧
    (Except.ok 0 : Except PyErr Nat) ≠ Except.ok 1 := by
  refine ⟨rfl, rfl, ?_⟩
  intro h
  exact absurd (Except.ok.inj h) (by decide)

/-- C1 (amended).  When the per-phase random-state dictionaries have been
installed (they are `None` after `__init__`) and the stored torch generator
for the phase is an independent (owned) generator, a phase call's result
and the stored numpy state it leaves behind are determined solely by the
stored per-phase states and the call's body: they are identical for any two
ambient global generator states (of processes with the same torch initial
seed). -/
theorem C1_phase_determinism (α : Type) (t : TransformerRNG) (rs : Phase → Nat)
    (rst : Phase → TorchGenRef) (p : Phase)
    (body : GlobalRNG → Except PyErr α × GlobalRNG) (s : Nat) (g1 g2 : GlobalRNG)
    (h1 : t.randomStates = some rs) (h2 : t.randomStatesTorch = some rst)
    (h3 : rst p = TorchGenRef.owned s) (h4 : g1.initialSeed = g2.initialSeed) :
    (callPhase t p body g1).result = (callPhase t p body g2).result ∧
    (callPhase t p body g1).transformer.randomStates =
      (callPhase t p body g2).transformer.randomStates := by
  simp only [callPhase, h1, h2, setRandomStatesRun, setRandomState, h3,
    TorchGenRef.getState, h4]
  exact ⟨trivial, trivial⟩

/-- C1 witness: the determinism theorem applied at a concrete transformer,
phase body and two distinct ambient global states. -/
theorem C1_phase_determinism_witness :
    (callPhase tOwned Phase.fit npProbe { np := 0, torch := 1, initialSeed := 9 }).result =
      (callPhase tOwned Phase.fit npProbe { np := 2, torch := 3, initialSeed := 9 }).result ∧
    (callPhase tOwned Phase.fit npProbe
        { np := 0, torch := 1, initialSeed := 9 }).transformer.randomStates =
      (callPhase tOwned Phase.fit npProbe
        { np := 2, torch := 3, initialSeed := 9 }).transformer.randomStates :=
  C1_phase_determinism Nat tOwned (fun _ => 3) (fun _ => TorchGenRef.owned 5) Phase.fit
    npProbe 5 { np := 0, torch := 1, initialSeed := 9 }
    { np := 2, torch := 3, initialSeed := 9 } rfl rfl rfl rfl

/-- C2: on a transformer whose random-state dictionaries are set, any phase
call restores the process-global numpy state and the process-global torch
state to their values from immediately before the call, for every body —
including bodies that mutate the global states and raise. -/
theorem C2_global_state_restored (α : Type) (t : TransformerRNG) (rs : Phase → Nat)
    (rst : Phase → TorchGenRef) (p : Phase)
    (body : GlobalRNG → Except PyErr α × GlobalRNG) (g : GlobalRNG)
    (h1 : t.randomStates = some rs) (h2 : t.randomStatesTorch = some rst) :
    (callPhase t p body g).global.np = g.np ∧
    (callPhase t p body g).global.torch = g.torch := by
  simp only [callPhase, h1, h2, setRandomStatesRun, setRandomState]
  exact ⟨trivial, trivial⟩

/-- C2 witness: the restoration theorem applied at a concrete transformer
and a body that mutates both global states and raises. -/
theorem C2_global_state_restored_witness :
    (callPhase tOwned Phase.transform failBody
        { np := 10, torch := 11, initialSeed := 12 }).global.np = 10 ∧
    (callPhase tOwned Phase.transform failBody
        { np := 10, torch := 11, initialSeed := 12 }).global.torch = 11 :=
  C2_global_state_restored Nat tOwned (fun _ => 3) (fun _ => TorchGenRef.owned 5)
    Phase.transform failBody { np := 10, torch := 11, initialSeed := 12 } rfl rfl

/-- C3 counterexample.  The claim states that the per-phase state stored
back by a phase call is a function only of the previous stored state for
that phase and the computation performed during the call.  Two calls on the
same externally-configured transformer (identical stored states) with the
same body, differing only in the ambient global torch state, leave stored
torch generator states that a subsequent reader (such as pickling) observes
as 7 and 9 respectively: the stored value is the re-seeded-then-restored
process default generator, i.e. ambient state, not a function of the stored
phase state and the computation. -/
theorem C3_counterexample :
    observedStoredTorch (callPhase tOwned Phase.fit noopBody
        { np := 0, torch := 7, initialSeed := 1 }) Phase.fit = some 7 ∧
    observedStoredTorch (callPhase tOwned Phase.fit noopBody
        { np := 0, torch := 9, initialSeed := 1 }) Phase.fit = some 9 ∧
    (some 7 : Option Nat) ≠ some 9 := by
  refine ⟨rfl, rfl, by decide⟩

/-- C3 (amended).  After a phase call on a transformer with installed
random states: the stored numpy state depends only on the stored per-phase
states and the body (equal across ambient states, for an owned torch
generator and a fixed process initial seed), but the stored torch entry is
the aliased process default generator, and the state observed on it after
the call is the ambient pre-call global torch state. -/
theorem C3_stored_state (α : Type) (t : TransformerRNG) (rs : Phase → Nat)
    (rst : Phase → TorchGenRef) (p : Phase)
    (body : GlobalRNG → Except PyErr α × GlobalRNG) (g g2 : GlobalRNG) (s : Nat)
    (h1 : t.randomStates = some rs) (h2 : t.randomStatesTorch = some rst)
    (h3 : rst p = TorchGenRef.owned s) (h4 : g2.initialSeed = g.initialSeed) :
    (callPhase t p body g).transformer.randomStatesTorch =
      some (updatePhase rst p TorchGenRef.default) ∧
    observedStoredTorch (callPhase t p body g) p = some g.torch ∧
    storedNp (callPhase t p body g) p = storedNp (callPhase t p body g2) p := by
  simp only [callPhase, h1, h2, setRandomStatesRun, setRandomState, h3,
    TorchGenRef.getState, h4, observedStoredTorch, storedNp, Option.map_some]
  refine ⟨trivial, ?_, trivial⟩
  simp [updatePhase, TorchGenRef.getState]

/-- C3 witness: the stored-state theorem applied at a concrete transformer,
body and pair of ambient global states. -/
theorem C3_stored_state_witness :
    (callPhase tOwned Phase.fit noopBody
        { np := 0, torch := 7, initialSeed := 1 }).transformer.randomStatesTorch =
      some (updatePhase (fun _ => TorchGenRef.owned 5) Phase.fit TorchGenRef.default) ∧
    observedStoredTorch (callPhase tOwned Phase.fit noopBody
        { np := 0, torch := 7, initialSeed := 1 }) Phase.fit = some 7 ∧
    storedNp (callPhase tOwned Phase.fit noopBody
        { np := 0, torch := 7, initialSeed := 1 }) Phase.fit =
      storedNp (callPhase tOwned Phase.fit noopBody
        { np := 4, torch := 8, initialSeed := 1 }) Phase.fit :=
  C3_stored_state Nat tOwned (fun _ => 3) (fun _ => TorchGenRef.owned 5) Phase.fit
    noopBody { np := 0, torch := 7, initialSeed := 1 }
    { np := 4, torch := 8, initialSeed := 1 } 5 rfl rfl rfl rfl

/-- C5 counterexample.  The claim states that `reset_randomization()`
succeeds on every `BaseTransformer` instance.  On a default-constructed
instance `random_states` is `None`, so the membership test inside
`set_random_state` (`method_name not in None`) raises `TypeError`. -/
theorem C5_counterexample :
    (resetRandomization BaseTransformer.init).2 = some PyErr.typeError := rfl

/-- C5 (amended).  On a transformer whose random-state dictionaries are
set, `reset_randomization()` succeeds, resets the three numpy phase states
to the class's seeded states (seeds 21, 80, 130), and sets all three torch
phase entries to the class-creation-time `torch.manual_seed` return value —
the single shared process default generator, not three independently seeded
states. -/
theorem C5_reset (rs : Phase → Nat) (rst : Phase → TorchGenRef) :
    (resetRandomization ⟨some rs, some rst⟩).2 = none ∧
    ((resetRandomization ⟨some rs, some rst⟩).1.randomStates.map
        (fun f => (f Phase.fit, f Phase.transform, f Phase.reverseTransform)) =
      some (npSeedState 21, npSeedState 80, npSeedState 130)) ∧
    ((resetRandomization ⟨some rs, some rst⟩).1.randomStatesTorch.map
        (fun f => (f Phase.fit, f Phase.transform, f Phase.reverseTransform)) =
      some (TorchGenRef.default, TorchGenRef.default, TorchGenRef.default)) :=
  ⟨rfl, rfl, rfl⟩

/-- Every name in a list is at most the maximum name length. -/
lemma length_le_maxNameLen {c : String} : ∀ {names : List String},
    c ∈ names → c.length ≤ maxNameLen names := by
  intro names h
  induction names with
  | nil => cases h
  | cons x rest ih =>
    rcases List.mem_cons.mp h with rfl | hr
    · exact le_max_left _ _
    · exact le_trans (ih hr) (le_max_right _ _)

/-- Every generated output column name starts with the column prefix, so it
is at least as long as the prefix. -/
lemma le_length_of_mem_output {c : String} {pfx : String}
    {props : List (Option String × List String)}
    (h : c ∈ getOutputColumnsFrom pfx props) : pfx.length ≤ c.length := by
  rcases List.mem_map.mp h with ⟨e, _, he⟩
  obtain ⟨k, ps⟩ := e
  subst he
  cases k with
  | none => exact le_refl _
  | some oc =>
    show pfx.length ≤ (pfx ++ "." ++ oc).length
    rw [String.length_append, String.length_append]
    omega

/-- The collision-avoidance loop returns output names that, apart from the
transformer's own input columns, do not occur among the data's column
names, provided the fuel exceeds the gap between the longest data column
name and the current prefix length (each turn grows the prefix by one, and
a prefix longer than every data column name cannot collide). -/
lemma buildLoop_disjoint (props : List (Option String × List String))
    (cols dataNames : List String) :
    ∀ (fuel : Nat) (pfx : String), maxNameLen dataNames < pfx.length + fuel →
      ∀ c ∈ (buildLoop fuel pfx props cols dataNames).2, c ∉ cols → c ∉ dataNames := by
  intro fuel
  induction fuel with
  | zero =>
    intro pfx hlt c hc _ hmem
    have h1 := le_length_of_mem_output hc
    have h2 := length_le_maxNameLen hmem
    omega
  | succ fuel ih =>
    intro pfx hlt c hc hnc hmem
    rw [buildLoop] at hc
    by_cases hrep : repeatedColumns (getOutputColumnsFrom pfx props) cols dataNames = []
    · rw [if_pos hrep] at hc
      have : c ∈ repeatedColumns (getOutputColumnsFrom pfx props) cols dataNames := by
        refine List.mem_filter.mpr ⟨hc, ?_⟩
        simp [hnc, hmem]
      rw [hrep] at this
      cases this
    · rw [if_neg hrep] at hc
      refine ih (pfx ++ "#") ?_ c hc hnc hmem
      rw [String.length_append]
      have hone : ("#" : String).length = 1 := rfl
      omega

/-- C4: after `fit(data, column)` succeeds, the derived output column
names, excluding names equal to the transformer's own input columns, are
disjoint from the columns already present in the data: the
collision-avoidance loop keeps appending `'#'` to the column prefix until
no collision remains. -/
theorem C4_output_columns_disjoint (α : Type) (t : TransformerCols) (data : Frame α)
    (column : String) (fitHook : List α → List α) (h : column ∈ Frame.names data) :
    ∃ t2 cd, fitCols t data column fitHook = Except.ok (t2, data, cd) ∧
      ∀ c ∈ t2.outputColumns, c ∉ t2.columns → c ∉ Frame.names data := by
  refine ⟨buildOutputColumns { t with columns := [column] } (Frame.names data),
    fitHook (Frame.col data column), ?_, ?_⟩
  · simp [fitCols, h]
  · intro c hc hnc
    exact buildLoop_disjoint t.outputProperties [column] (Frame.names data)
      (maxNameLen (Frame.names data) + 1) (joinHash [column]) (by omega) c hc hnc

/-- C4 witness: the disjointness theorem applied at a concrete transformer
(fresh `__init__` attributes) and a concrete one-column data frame. -/
theorem C4_output_columns_disjoint_witness :
    ∃ t2 cd,
      fitCols { outputProperties := defaultOutputProperties, columns := [],
                columnPfx := "", outputColumns := [] }
        ({ cols := [("a", [0])] } : Frame Nat) "a" (fun v => v) =
        Except.ok (t2, { cols := [("a", [0])] }, cd) ∧
      ∀ c ∈ t2.outputColumns, c ∉ t2.columns →
        c ∉ Frame.names ({ cols := [("a", [0])] } : Frame Nat) :=
  C4_output_columns_disjoint Nat
    { outputProperties := defaultOutputProperties, columns := [],
      columnPfx := "", outputColumns := [] }
    { cols := [("a", [0])] } "a" (fun v => v) (by decide)

/-- C9: `fit(data, column)` leaves the input data frame unchanged: the
column data handed to the `_fit` hook is an independent copy (so the hook
mutating its argument cannot affect the frame), and `_store_columns` /
`_build_output_columns` write only transformer attributes.  The frame in
the result is the input frame itself, for every hook. -/
theorem C9_fit_preserves_data (α : Type) (t : TransformerCols) (data : Frame α)
    (column : String) (fitHook : List α → List α) (h : column ∈ Frame.names data) :
    ∃ t2 cd, fitCols t data column fitHook = Except.ok (t2, data, cd) ∧
      cd = fitHook (Frame.col data column) := by
  refine ⟨buildOutputColumns { t with columns := [column] } (Frame.names data),
    fitHook (Frame.col data column), ?_, rfl⟩
  simp [fitCols, h]

/-- C9 witness: the frame-preservation theorem applied at a concrete
transformer, frame and mutating hook. -/
theorem C9_fit_preserves_data_witness :
    ∃ t2 cd,
      fitCols { outputProperties := defaultOutputProperties, columns := [],
                columnPfx := "", outputColumns := [] }
        ({ cols := [("b", [7])] } : Frame Nat) "b" (fun v => 9 :: v) =
        Except.ok (t2, { cols := [("b", [7])] }, cd) ∧
      cd = (fun v => 9 :: v) (Frame.col ({ cols := [("b", [7])] } : Frame Nat) "b") :=
  C9_fit_preserves_data Nat
    { outputProperties := defaultOutputProperties, columns := [],
      columnPfx := "", outputColumns := [] }
    { cols := [("b", [7])] } "b" (fun v => 9 :: v) (by decide)

/-- Membership in the loop over `cls.__subclasses__()`: an element of the
accumulated list is, for some direct subclass, either that subclass itself
(when `abc.ABC` is not among its bases) or a member of its recursive
`get_subclasses()`. -/
lemma mem_getSubclassesList {d : PyClass} : ∀ {L : List PyClass},
    d ∈ getSubclassesList L ↔
      ∃ c ∈ L, (d = c ∧ c.abcBase = false) ∨ d ∈ getSubclasses c := by
  intro L
  induction L with
  | nil => simp [getSubclassesList]
  | cons c rest ih =>
    rw [getSubclassesList]
    simp only [List.mem_append, ih, List.mem_cons]
    constructor
    · rintro ((h | h) | h)
      · by_cases hb : c.abcBase
        · rw [if_pos hb] at h
          cases h
        · rw [if_neg hb] at h
          exact ⟨c, Or.inl rfl, Or.inl ⟨List.mem_singleton.mp h, Bool.eq_false_iff.mpr hb⟩⟩
      · exact ⟨c, Or.inl rfl, Or.inr h⟩
      · rcases h with ⟨s, hs, hcase⟩
        exact ⟨s, Or.inr hs, hcase⟩
    · rintro ⟨s, hs | hs, hcase⟩
      · rcases hcase with ⟨hds, hb⟩ | hrec
        · left; left
          rw [if_neg (by rw [← hs]; simp [hb])]
          exact List.mem_singleton.mpr (by rw [hds, hs])
        · left; right
          rw [← hs]
          exact hrec
      · right; exact ⟨s, hs, hcase⟩

/-- Forward half of C6, by strong induction on the size of the class tree:
a member of `get_subclasses()` is a strict descendant with `abc.ABC` not
among its direct bases. -/
lemma getSubclasses_mem_aux : ∀ (k : Nat) (c : PyClass), sizeOf c ≤ k →
    ∀ d, d ∈ getSubclasses c → StrictDescendant c d ∧ d.abcBase = false := by
  intro k
  induction k with
  | zero =>
    intro c hc
    obtain ⟨cid, cb, subs⟩ := c
    simp at hc
  | succ k ih =>
    intro c hc d hd
    obtain ⟨cid, cb, subs⟩ := c
    rw [getSubclasses] at hd
    rcases mem_getSubclassesList.mp hd with ⟨s, hs, hcase⟩
    rcases hcase with ⟨rfl, hb⟩ | hrec
    · exact ⟨StrictDescendant.direct hs, hb⟩
    · have hsz : sizeOf s ≤ k := by
        have h1 := List.sizeOf_lt_of_mem hs
        have h2 : sizeOf (PyClass.node cid cb subs) = 1 + sizeOf cid + sizeOf cb + sizeOf subs := by
          simp
        omega
      obtain ⟨hsd, hb⟩ := ih s hsz d hrec
      exact ⟨StrictDescendant.step hs hsd, hb⟩

/-- `get_subclasses()` on any class is the loop over its direct
subclasses. -/
lemma getSubclasses_eq (c : PyClass) :
    getSubclasses c = getSubclassesList c.directSubs := by
  obtain ⟨cid, cb, subs⟩ := c
  rfl

/-- Backward half of C6: every strict descendant without `abc.ABC` among
its direct bases is collected by `get_subclasses()`. -/
lemma mem_getSubclasses_of_desc {c d : PyClass} (h : StrictDescendant c d) :
    d.abcBase = false → d ∈ getSubclasses c := by
  induction h with
  | direct hmem =>
    intro hb
    rw [getSubclasses_eq]
    exact mem_getSubclassesList.mpr ⟨_, hmem, Or.inl ⟨rfl, hb⟩⟩
  | step hmem _ ih =>
    intro hb
    rw [getSubclasses_eq]
    exact mem_getSubclassesList.mpr ⟨_, hmem, Or.inr (ih hb)⟩

/-- C6: for every class in the modelled hierarchy, `get_subclasses()`
contains exactly the strict descendants whose direct base classes do not
include `abc.ABC`; abstract intermediate classes are excluded but their own
subclasses are still visited and included. -/
theorem C6_get_subclasses (c d : PyClass) :
    d ∈ getSubclasses c ↔ StrictDescendant c d ∧ d.abcBase = false :=
  ⟨fun h => getSubclasses_mem_aux (sizeOf c) c le_rfl d h,
   fun h => mem_getSubclasses_of_desc h.1 h.2⟩

/-- C7 counterexample.  The claim states that `load_models` raises
`NotImplementedError` if and only if some requested name has no registered
model.  Requesting `["torchrln", "torchrln"]` raises even though every
requested name is registered: the filtered registry has one entry but two
names were requested, so the length check fails. -/
theorem C7_counterexample :
    load_models ["torchrln", "torchrln"] = Except.error PyErr.notImplementedError ∧
    ∀ nm ∈ ["torchrln", "torchrln"], nm ∈ models.map Prod.fst := by
  refine ⟨rfl, by decide⟩

/-- C7 (amended).  For a request without duplicated names, `load_models`
raises `NotImplementedError` exactly when some requested name has no model
registered under it; `load_models ["torchrln"]` returns the `TORCHRLN`
class and `load_model "torchrln"` returns it directly.  (With duplicated
requested names the length check also fails, as the counterexample shows.) -/
theorem C7_load_models (names : List String) (hnd : names.Nodup) :
    (isErr (load_models names) = true ↔ ∃ nm ∈ names, nm ∉ models.map Prod.fst) ∧
    load_models ["torchrln"] = Except.ok [ModelClass.TORCHRLN] ∧
    load_model "torchrln" = Except.ok ModelClass.TORCHRLN := by
  refine ⟨?_, rfl, rfl⟩
  have hmap : models.map Prod.fst = ["torchrln"] := rfl
  have herr : isErr (load_models names) = true ↔
      ((models.filter (fun e => decide (e.1 ∈ names))).map Prod.snd).length ≠ names.length := by
    by_cases hc :
        ((models.filter (fun e => decide (e.1 ∈ names))).map Prod.snd).length ≠ names.length
    · simp only [load_models]
      rw [if_pos hc]
      simpa [isErr] using hc
    · simp only [load_models]
      rw [if_neg hc]
      simpa [isErr] using hc
  rw [herr, hmap]
  have hlen : ((models.filter (fun e => decide (e.1 ∈ names))).map Prod.snd).length =
      if "torchrln" ∈ names then 1 else 0 := by
    by_cases h : "torchrln" ∈ names <;> simp [models, h]
  rw [hlen]
  by_cases hT : "torchrln" ∈ names
  · rw [if_pos hT]
    constructor
    · intro hne
      have hpos : 0 < names.length := List.length_pos.mpr (List.ne_nil_of_mem hT)
      have h2 : 2 ≤ names.length := by omega
      by_contra hcon
      push_neg at hcon
      have hall : ∀ nm ∈ names, "torchrln" = nm := by
        intro nm hnm
        exact (List.mem_singleton.mp (hcon nm hnm)).symm
      have hcount : names.count "torchrln" = names.length := List.count_eq_length.mpr hall
      have hle1 : names.count "torchrln" ≤ 1 := List.nodup_iff_count_le_one.mp hnd _
      omega
    · rintro ⟨nm, hnm, hno⟩ h1
      rcases List.length_eq_one.mp h1.symm with ⟨a, rfl⟩
      have ha : a = "torchrln" := (List.mem_singleton.mp hT).symm
      rw [ha] at hnm
      exact hno hnm
  · rw [if_neg hT]
    constructor
    · intro hne
      have hnil : names ≠ [] := by
        intro h
        rw [h] at hne
        exact hne rfl
      obtain ⟨nm, hnm⟩ := List.exists_mem_of_ne_nil names hnil
      refine ⟨nm, hnm, ?_⟩
      intro h
      rw [List.mem_singleton.mp h] at hnm
      exact hT hnm
    · rintro ⟨nm, hnm, _⟩ h0
      rw [List.eq_nil_of_length_eq_zero h0.symm] at hnm
      cases hnm

/-- C7 witness: the amended theorem applied at the duplicate-free request
`["foo"]`, whose name is not registered. -/
theorem C7_load_models_witness :
    (isErr (load_models ["foo"]) = true ↔ ∃ nm ∈ ["foo"], nm ∉ models.map Prod.fst) ∧
    load_models ["torchrln"] = Except.ok [ModelClass.TORCHRLN] ∧
    load_model "torchrln" = Except.ok ModelClass.TORCHRLN :=
  C7_load_models ["foo"] (by decide)

/-- C10: constructing an `RLNCallback` with a norm outside `{1, 2}` raises
`AssertionError` (the assertion runs before `self.norm` is assigned, and on
failure no constructed state is produced); for norm 1 or 2 construction
succeeds, and the norm-derivative computation is total on both branches:
the sign of the weight for norm 1, twice the weight for norm 2. -/
theorem C10_norm_assertion (n m : Nat) (w : Mat n m) (norm : Nat) (avgReg lr : ℝ) :
    ((norm ≠ 1 ∧ norm ≠ 2) →
      RLNCallback.init n m w norm avgReg lr = Except.error PyErr.assertionError) ∧
    ((norm = 1 ∨ norm = 2) → isErr (RLNCallback.init n m w norm avgReg lr) = false) ∧
    (∀ x : ℝ, normsDerivative 1 x = npSign x ∧ normsDerivative 2 x = x * 2) := by
  refine ⟨?_, ?_, ?_⟩
  · rintro ⟨h1, h2⟩
    rw [RLNCallback.init, if_neg (by tauto)]
  · intro h
    rw [RLNCallback.init, if_pos h]
    rfl
  · intro x
    exact ⟨rfl, rfl⟩

/-- C10 witness: the assertion theorem applied at norm 3 (raises) and at
norm 1 (succeeds). -/
theorem C10_norm_assertion_witness :
    RLNCallback.init 1 1 matOne 3 1 1 = Except.error PyErr.assertionError ∧
    isErr (RLNCallback.init 1 1 matOne 1 1 1) = false :=
  ⟨(C10_norm_assertion 1 1 matOne 3 1 1).1 (by decide),
   (C10_norm_assertion 1 1 matOne 1 1 1).2.1 (Or.inl rfl)⟩

/-- Adding a constant to every entry of a column shifts its mean by that
constant. -/
lemma dfMean_add_const {k : Nat} (hk : 0 < k) (v : Fin k → ℝ) (t : ℝ) :
    dfMean (fun i => v i + t) = dfMean v + t := by
  unfold dfMean
  rw [Finset.sum_add_distrib, Finset.sum_const, Finset.card_univ, Fintype.card_fin,
    nsmul_eq_mul, add_div, mul_div_cancel_left₀ t (by exact_mod_cast hk.ne' : (k : ℝ) ≠ 0)]

/-- Adding a constant to every entry of a matrix shifts the mean of
column means by that constant. -/
lemma dfMean2_add_const {n m : Nat} (hn : 0 < n) (hm : 0 < m) (A : Mat n m) (t : ℝ) :
    dfMean2 (fun i j => A i j + t) = dfMean2 A + t := by
  unfold dfMean2
  have h1 : (fun j => dfMean (fun i => A i j + t)) = fun j => dfMean (fun i => A i j) + t := by
    funext j
    exact dfMean_add_const hn _ t
  rw [h1]
  exact dfMean_add_const hm _ t

/-- The column mean is monotone in the entries. -/
lemma dfMean_le_dfMean {k : Nat} (hk : 0 < k) {v w : Fin k → ℝ} (h : ∀ i, v i ≤ w i) :
    dfMean v ≤ dfMean w := by
  unfold dfMean
  have hc : (0 : ℝ) < (k : ℝ) := by exact_mod_cast hk
  exact (div_le_div_iff_of_pos_right hc).mpr (Finset.sum_le_sum fun i _ => h i)

/-- The mean of column means is monotone in the entries. -/
lemma dfMean2_le_dfMean2 {n m : Nat} (hn : 0 < n) (hm : 0 < m) {A B : Mat n m}
    (h : ∀ i j, A i j ≤ B i j) : dfMean2 A ≤ dfMean2 B := by
  unfold dfMean2
  exact dfMean_le_dfMean hm fun j => dfMean_le_dfMean hn fun i => h i j

/-- Clipping from above never increases an entry. -/
lemma clipUpper_le (x : ℝ) (u : Option ℝ) : clipUpper x u ≤ x := by
  cases u with
  | none => exact le_refl x
  | some b => exact min_le_left x b

/-- The simplex-projection step makes the mean of the lambdas exactly the
average regularization coefficient. -/
lemma dfMean2_projectLambdas {n m : Nat} (hn : 0 < n) (hm : 0 < m) (avgReg : ℝ)
    (l : Mat n m) : dfMean2 (projectLambdas avgReg l) = avgReg := by
  unfold projectLambdas
  rw [dfMean2_add_const hn hm]
  ring

/-- C8 (amended).  On a non-first batch (previous regularization set), the
simplex-projection step of `on_batch_end` does make the mean of the
regularization-coefficient table `_lambdas` equal to Theta (`_avg_reg`);
but the method then clips the lambdas from above, which can only decrease
entries, so at the end of the method the mean is at most Theta (with
equality only when no entry got clipped). -/
theorem C8_lambda_mean (n m : Nat) (s : RLNState n m) (pr pw : Mat n m)
    (hn : 0 < n) (hm : 0 < m)
    (hpr : s.prevRegularization = some pr) (hw : s.weights = some pw) :
    ∃ s2, onBatchEnd s = Except.ok s2 ∧
      dfMean2 (preClipLambdas s pw) = s.avgReg ∧
      dfMean2 s2.lambdas ≤ s.avgReg := by
  have hmid : dfMean2 (preClipLambdas s pw) = s.avgReg := by
    unfold preClipLambdas
    rw [hpr]
    exact dfMean2_projectLambdas hn hm _ _
  refine ⟨{ s with
      prevWeights := some pw
      weights := some (fun i j => s.layerWeight i j -
        normsDerivative s.norm (s.layerWeight i j) *
          Real.exp (clipUpper (preClipLambdas s pw i j)
            (maxLambdaVal (s.layerWeight i j) (normsDerivative s.norm (s.layerWeight i j)))))
      lambdas := fun i j => clipUpper (preClipLambdas s pw i j)
        (maxLambdaVal (s.layerWeight i j) (normsDerivative s.norm (s.layerWeight i j)))
      layerWeight := fun i j => s.layerWeight i j -
        normsDerivative s.norm (s.layerWeight i j) *
          Real.exp (clipUpper (preClipLambdas s pw i j)
            (maxLambdaVal (s.layerWeight i j) (normsDerivative s.norm (s.layerWeight i j))))
      prevRegularization := some (fun i j => normsDerivative s.norm (s.layerWeight i j) *
        Real.exp (clipUpper (preClipLambdas s pw i j)
          (maxLambdaVal (s.layerWeight i j) (normsDerivative s.norm (s.layerWeight i j))))) },
    ?_, hmid, ?_⟩
  · simp only [onBatchEnd]
    rw [hw]
  · calc dfMean2 (fun i j => clipUpper (preClipLambdas s pw i j)
          (maxLambdaVal (s.layerWeight i j) (normsDerivative s.norm (s.layerWeight i j)))) ≤
        dfMean2 (preClipLambdas s pw) :=
          dfMean2_le_dfMean2 hn hm fun i j => clipUpper_le _ _
    _ = s.avgReg := hmid

/-- C8 witness: the amended theorem applied at the concrete reachable 1x1
state `rlnSb` (previous regularization set). -/
theorem C8_lambda_mean_witness :
    ∃ s2, onBatchEnd rlnSb = Except.ok s2 ∧
      dfMean2 (preClipLambdas rlnSb rlnW0) = rlnSb.avgReg ∧
      dfMean2 s2.lambdas ≤ rlnSb.avgReg :=
  C8_lambda_mean 1 1 rlnSb matOne rlnW0 one_pos one_pos rfl rfl

/-- The mean of column means of a 1x1 matrix is its single entry. -/
lemma dfMean2_one_one (f : Mat 1 1) : dfMean2 f = f 0 0 := by
  unfold dfMean2 dfMean
  simp [Fin.sum_univ_one]

/-- `np.sign(1) = 1`. -/
lemma npSign_one : npSign 1 = 1 := by
  unfold npSign
  norm_num

/-- The l1 norm derivative at weight 1. -/
lemma normsDerivative_l1_one : normsDerivative 1 1 = 1 := by
  unfold normsDerivative
  rw [if_pos rfl, npSign_one]

/-- The clip bound at weight 1 with norm derivative 1 is `log 1 = 0`. -/
lemma maxLambdaVal_one_one : maxLambdaVal 1 1 = some 0 := by
  unfold maxLambdaVal
  rw [if_neg (by norm_num), div_one, abs_one, Real.log_one]

/-- Clipping 1 at upper bound 0 gives 0. -/
lemma clipUpper_one_zero : clipUpper 1 (some 0) = 0 := by
  unfold clipUpper
  exact min_eq_right (by norm_num)

/-- The first `on_batch_end` after `on_train_begin` on the fresh 1x1
callback `rlnS0`: the lambdas get clipped from 1 (= Theta) down to
`log |1/1| = 0`, the regularization is `1 * exp 0 = 1` and the weight is
updated from 1 to 0.  The result is `rlnSb` except that the layer weight
is still the written-back 0. -/
lemma rln_first_call :
    onBatchEnd (onTrainBegin rlnS0) = Except.ok { rlnSb with layerWeight := rlnW0 } := by
  simp only [onBatchEnd, onTrainBegin, rlnS0]
  simp only [Except.ok.injEq, RLNState.mk.injEq, rlnSb]
  refine ⟨?_, trivial, ?_, ?_, ?_⟩
  · funext i j
    simp only [preClipLambdas, matOne, rlnW0]
    rw [normsDerivative_l1_one, maxLambdaVal_one_one, clipUpper_one_zero, Real.exp_zero]
    norm_num
  · refine congrArg some ?_
    funext i j
    simp only [preClipLambdas, matOne, rlnW0]
    rw [normsDerivative_l1_one, maxLambdaVal_one_one, clipUpper_one_zero, Real.exp_zero]
    norm_num
  · refine congrArg some ?_
    funext i j
    simp only [preClipLambdas, matOne]
    rw [normsDerivative_l1_one, maxLambdaVal_one_one, clipUpper_one_zero, Real.exp_zero]
    norm_num
  · refine ⟨trivial, ?_, trivial, trivial⟩
    funext i j
    simp only [preClipLambdas, matOne, rlnW0]
    rw [normsDerivative_l1_one, maxLambdaVal_one_one, clipUpper_one_zero]

/-- C8 counterexample.  The claim states that after every non-first
`on_batch_end` the mean of `_lambdas` equals Theta.  Concrete run on a 1x1
layer with `norm = 1`, `avg_reg = 1`, `learning_rate = 1`: construction,
`on_train_begin`, a first `on_batch_end` (reaching the state `rlnSb` after
the training loop sets the layer weight back to 1), then a second,
non-first `on_batch_end` (previous regularization is set).  After the
simplex projection the lambdas are 1, but the clipping step lowers them to
`log |1/1| = 0`, so the final mean is `0 ≠ 1 = Theta`. -/
theorem C8_counterexample :
    RLNCallback.init 1 1 matOne 1 1 1 = Except.ok rlnS0 ∧
    onBatchEnd (onTrainBegin rlnS0) = Except.ok { rlnSb with layerWeight := rlnW0 } ∧
    (onBatchEnd rlnSb).map (fun s3 => s3.prevRegularization.isSome) = Except.ok true ∧
    (onBatchEnd rlnSb).map (fun s3 => s3.avgReg) = Except.ok 1 ∧
    (onBatchEnd rlnSb).map (fun s3 => dfMean2 s3.lambdas) = Except.ok 0 ∧
    (0 : ℝ) ≠ 1 := by
  refine ⟨rfl, rln_first_call, rfl, rfl, ?_, by norm_num⟩
  show Except.ok (dfMean2 (fun i j => clipUpper (preClipLambdas rlnSb rlnW0 i j)
    (maxLambdaVal (rlnSb.layerWeight i j)
      (normsDerivative rlnSb.norm (rlnSb.layerWeight i j))))) = Except.ok (0 : ℝ)
  refine congrArg Except.ok ?_
  rw [dfMean2_one_one]
  have hpre : preClipLambdas rlnSb rlnW0 0 0 = 1 := by
    simp only [preClipLambdas, projectLambdas, rlnSb, rlnW0, matOne]
    rw [dfMean2_one_one]
    norm_num
  show clipUpper (preClipLambdas rlnSb rlnW0 0 0)
      (maxLambdaVal (rlnSb.layerWeight 0 0)
        (normsDerivative rlnSb.norm (rlnSb.layerWeight 0 0))) = 0
  have hlw : rlnSb.layerWeight 0 0 = 1 := rfl
  have hnorm : rlnSb.norm = 1 := rfl
  rw [hpre, hlw, hnorm, normsDerivative_l1_one, maxLambdaVal_one_one, clipUpper_one_zero]

end CAdvDGM
